import Mathlib

/-!
Verification development for `element_session/export/nwb.py`.

The file `nwb.py` defines a single function `session_to_nwb(session_key,
subject_id=None)` that gathers session-, subject- and lab-level metadata
from a relational store and assembles one in-memory `pynwb.NWBFile`
record.  Below we give a shallow embedding of that function and of the
store it queries, and prove the specified properties about it.

External collaborators (the DataJoint query engine, `pynwb`,
`element_animal`, `element_lab`) are modelled explicitly:

* a DataJoint table is a list of records, a dict restriction keeps the
  rows whose shared attributes agree with the restriction dict, and
  `fetch1` succeeds exactly on a one-row result;
* Python `datetime` values are an absolute instant (seconds since the
  epoch) plus an optional timezone offset in hours, `astimezone` keeps
  the instant and replaces the offset;
* the availability and activation of the optional `element_animal` and
  `element_lab` providers, and the `subject_to_nwb` translation function
  imported from `element_animal`, are fields of an environment record;
* the `uuid4()` draw is an explicit input of the embedded function.

Per the repository spec, the identifiers `subject`, `lab`, `timedelta`,
`timezone` and `DataJointError` used inside `session_to_nwb` without a
visible definition are treated as ambient references to the shared
collaborator objects.
-/

set_option autoImplicit false

namespace ElementSession

/-- Model of a Python `datetime` value: an absolute instant in seconds
since the epoch together with the timezone offset in hours of its
current representation (`none` for a naive datetime). -/
structure PyDateTime where
  instant : Int
  offsetHours : Option Int
  deriving DecidableEq, Repr

/-- Model of `d.astimezone(tz)` for an offset of `h` hours: the same
absolute instant re-expressed in the offset `h`. -/
def PyDateTime.astimezone (d : PyDateTime) (h : Int) : PyDateTime :=
  { instant := d.instant, offsetHours := some h }

/-- Model of `datetime.isoformat`: an injective textual rendering of the
datetime.  The exact ISO-8601 calendar spelling lives in the external
`datetime` library; only the fact that each timestamp component of the
key is rendered through this function matters here. -/
def PyDateTime.isoformat (d : PyDateTime) : String :=
  toString d.instant ++ (match d.offsetHours with
    | none => ("")
    | some h => ("@") ++ toString h)

/-- An attribute value of a stored record: a string or a datetime. -/
inductive AttrVal where
  | str (s : String)
  | dt (d : PyDateTime)
  deriving DecidableEq, Repr

/-- A dict of attributes, in insertion order (Python dicts keep it). -/
abbrev Attrs := List (String × AttrVal)

/-- Model of dict access `row[k]` returning the first binding of `k`. -/
def lookupAttr (row : Attrs) (k : String) : Option AttrVal :=
  (row.find? (fun p => p.1 == k)).map (fun p => p.2)

/-- Model of a DataJoint dict restriction `table & restriction`: every
restriction attribute that also exists in the row must agree; attributes
absent from the row do not constrain it. -/
def matchesKey (restriction row : Attrs) : Bool :=
  restriction.all (fun p =>
    match lookupAttr row p.1 with
    | some w => w == p.2
    | none => true)

/-- A row of `session.Session`: its primary-key dict (`Session::KEY`)
and the `session_datetime` attribute. -/
structure SessionRecord where
  key : Attrs
  session_datetime : PyDateTime
  deriving DecidableEq, Repr

/-- A row of `session.SessionNote`. -/
structure NoteRecord where
  key : Attrs
  session_note : String
  deriving DecidableEq, Repr

/-- A row of `session.SessionExperimenter`. -/
structure ExperimenterRecord where
  key : Attrs
  experimenter : String
  deriving DecidableEq, Repr

/-- A row of `element_animal`.`subject.Subject`. -/
structure SubjectRecord where
  subject : String
  sex : Option String
  deriving DecidableEq, Repr

/-- A row of the `subject.Subject.Lab` part table: the lab affiliation
of a subject. -/
structure SubjectLabRecord where
  subject : String
  lab_name : String
  deriving DecidableEq, Repr

/-- A row of `element_lab`.`lab.Lab`.  `institution` and `time_zone`
are optional: a missing value makes `record.get` return its default and
makes the `in` containment test false. -/
structure LabRecord where
  lab_name : String
  institution : Option String
  time_zone : Option String
  deriving DecidableEq, Repr

/-- The relational store queried by `session_to_nwb`. -/
structure Store where
  sessions : List SessionRecord
  notes : List NoteRecord
  experimenters : List ExperimenterRecord
  subjects : List SubjectRecord
  subjectLabs : List SubjectLabRecord
  labs : List LabRecord

/-- The subject sub-record of the output artifact
(`pynwb.file.Subject`). -/
structure SubjectNwb where
  subject_id : String
  sex : Option String
  deriving DecidableEq, Repr

/-- The output artifact (`pynwb.NWBFile`), restricted to the fields this
function sets. -/
structure NWBFile where
  session_id : String
  identifier : String
  session_start_time : PyDateTime
  session_description : String
  experimenter : Option (List String)
  subject : Option SubjectNwb
  institution : Option String
  lab : Option String
  deriving DecidableEq, Repr

/-- The Python exceptions `session_to_nwb` can raise. -/
inductive PyError where
  | dataJointError (msg : String)
  | valueError (msg : String)
  deriving DecidableEq, Repr

/-- The optional-provider environment: availability flags of
`element_animal` and `element_lab`, the activation state of their
schemas, and the external `subject_to_nwb` translation applied to the
restricted subject query. -/
structure Env where
  haveElementAnimal : Bool
  animalSchemaActivated : Bool
  haveElementLab : Bool
  labSchemaActivated : Bool
  subject_to_nwb : List SubjectRecord → SubjectNwb

/-- Rows of `session.Session & session_key`. -/
def restrictSessions (store : Store) (key : Attrs) : List SessionRecord :=
  store.sessions.filter (fun r => matchesKey key r.key)

/-- Model of `(session.Session & session_key).fetch1("KEY")`: the
primary key of the unique matching row; a `DataJointError` when the
restriction has zero rows or more than one. -/
def fetch1Key (store : Store) (key : Attrs) : Except PyError Attrs :=
  match restrictSessions store key with
  | [r] => .ok r.key
  | _ => .error (.dataJointError ("fetch1 should only return one tuple"))

/-- One value of the `session_identifier` dict: `v.isoformat()` for a
datetime value, the value itself otherwise. -/
def sessionIdentifierValue (p : String × AttrVal) : String :=
  match p.2 with
  | .dt d => d.isoformat
  | .str s => s

/-- Rows of `(session.Session & session_key).join(session.SessionNote,
left=True)`: each matching session row paired with its note when one
joins, or with `none` under the left-join semantics. -/
def joinedSessionNoteRows (store : Store) (skey : Attrs) :
    List (SessionRecord × Option String) :=
  (restrictSessions store skey).flatMap (fun r =>
    match store.notes.filter (fun n => matchesKey r.key n.key) with
    | [] => [(r, none)]
    | ns => ns.map (fun n => (r, some n.session_note)))

/-- Model of `(session.Session & session_key).join(session.SessionNote,
left=True).fetch1()`. -/
def fetch1SessionInfo (store : Store) (skey : Attrs) :
    Except PyError (SessionRecord × Option String) :=
  match joinedSessionNoteRows store skey with
  | [info] => .ok info
  | _ => .error (.dataJointError ("fetch1 should only return one tuple"))

/-- Model of `(session.SessionExperimenter &
session_key).fetch("experimenter")`, in stored (fetch) order. -/
def fetchExperimenters (store : Store) (skey : Attrs) : List String :=
  (store.experimenters.filter (fun e => matchesKey skey e.key)).map
    (fun e => e.experimenter)

/-- Model of `list(experimenters) or None`. -/
def expOrNone (l : List String) : Option (List String) :=
  match l with
  | [] => none
  | l => some l

/-- Model of `subject.Subject & session_key`, the query passed to
`subject_to_nwb`. -/
def restrictSubjects (store : Store) (skey : Attrs) : List SubjectRecord :=
  store.subjects.filter (fun s => matchesKey skey [(("subject"), .str s.subject)])

/-- Rows of `lab.Lab & subject.Subject.Lab() & session_key`: one row per
pair of a lab row and a matching affiliation row whose subject agrees
with the session key. -/
def labQuery (store : Store) (key : Attrs) : List LabRecord :=
  store.labs.flatMap (fun l =>
    (store.subjectLabs.filter (fun sl =>
      sl.lab_name == l.lab_name &&
        matchesKey key [(("subject"), .str sl.subject)])).map (fun _ => l))

/-- Model of Python `int(s)` on the strings this code meets: an optional
sign followed by at least one decimal digit; anything else raises
`ValueError`. -/
def digitsToNat : List Char → Option Nat
  | [] => none
  | cs =>
    cs.foldl (fun acc c =>
      match acc with
      | some n => if c.isDigit then some (10 * n + (c.toNat - 48)) else none
      | none => none) (some 0)

/-- Model of Python `int(s)` for decimal string literals. -/
def pyInt (s : String) : Option Int :=
  match s.data with
  | ('+') :: rest => (digitsToNat rest).map Int.ofNat
  | ('-') :: rest => (digitsToNat rest).map (fun n => -(n : Int))
  | cs => (digitsToNat cs).map Int.ofNat

/-- The `nwbfile_kwargs` collected before the provider branches. -/
def mkBase (store : Store) (skey : Attrs) (info : SessionRecord × Option String)
    (uuid : String) : NWBFile :=
  { session_id := String.intercalate ("_") (skey.map sessionIdentifierValue),
    identifier := uuid,
    session_start_time := info.1.session_datetime.astimezone 0,
    session_description := info.2.getD (""),
    experimenter := expOrNone (fetchExperimenters store skey),
    subject := none,
    institution := none,
    lab := none }

/-- The provider branches of `session_to_nwb`: subject translation, the
lab query, and the timezone adjustment, applied to the collected
`nwbfile_kwargs`.  In the timezone branch the source evaluates
`nwbfile_kwargs["session_start_time"].astimezone(timezone(hours_timedelta))`
without storing the result, so the only observable effects of that line
are the exceptions `int` and `timezone` can raise: `session_start_time`
itself is left unchanged. -/
def applySubjectAndLab (env : Env) (store : Store) (skey : Attrs)
    (subject_id : Option String) (base : NWBFile) : Except PyError NWBFile :=
  if env.haveElementAnimal && env.animalSchemaActivated then
    let base := { base with
      subject := some (env.subject_to_nwb (restrictSubjects store skey)) }
    if env.haveElementLab && env.labSchemaActivated then
      match labQuery store skey with
      | [] => .ok base
      | [lab_record] =>
        let base := { base with
          institution := lab_record.institution,
          lab := some lab_record.lab_name }
        match lab_record.time_zone with
        | some tz =>
          if tz.take 3 == ("UTC") then
            match pyInt (tz.drop 3) with
            | some hours =>
              if hours ≤ -24 ∨ 24 ≤ hours then
                .error (.valueError
                  ("offset must be a timedelta strictly between -timedelta(hours=24) and timedelta(hours=24)"))
              else
                .ok base
            | none =>
              .error (.valueError
                (("invalid literal for int() with base 10: ") ++ tz.drop 3))
          else .ok base
        | none => .ok base
      | _ =>
        .error (.dataJointError
          ("Multiple labs associated with this session. Try restricting your session key to specify lab."))
    else .ok base
  else
    match subject_id with
    | none =>
      .error (.valueError
        ("If you are not using element_animal, you musts specify a subject_id."))
    | some s => .ok { base with subject := some { subject_id := s, sex := none } }

/-- Shallow embedding of `session_to_nwb(session_key, subject_id)`.
The `uuid` argument is the `str(uuid4())` draw made during the call. -/
def session_to_nwb (env : Env) (store : Store) (session_key : Attrs)
    (subject_id : Option String) (uuid : String) : Except PyError NWBFile :=
  match fetch1Key store session_key with
  | .error e => .error e
  | .ok skey =>
    match fetch1SessionInfo store skey with
    | .error e => .error e
    | .ok info =>
      applySubjectAndLab env store skey subject_id (mkBase store skey info uuid)


theorem applySubjectAndLab_ok_fields (env : Env) (store : Store) (skey : Attrs)
    (sid : Option String) (base : NWBFile) (f : NWBFile)
    (h : applySubjectAndLab env store skey sid base = .ok f) :
    f.session_id = base.session_id ∧ f.identifier = base.identifier ∧
    f.session_start_time = base.session_start_time ∧
    f.session_description = base.session_description ∧
    f.experimenter = base.experimenter := by
  unfold applySubjectAndLab at h
  repeat' split at h
  all_goals (try exact (Except.noConfusion h))
  all_goals (injection h with h; subst h; simp)

theorem session_to_nwb_ok_inv (env : Env) (store : Store) (key : Attrs)
    (sid : Option String) (uuid : String) (r : SessionRecord) (f : NWBFile)
    (hr : restrictSessions store key = [r])
    (hok : session_to_nwb env store key sid uuid = .ok f) :
    ∃ info, fetch1SessionInfo store r.key = .ok info ∧
      applySubjectAndLab env store r.key sid (mkBase store r.key info uuid) = .ok f := by
  have hk : fetch1Key store key = .ok r.key := by unfold fetch1Key; rw [hr]
  unfold session_to_nwb at hok
  rw [hk] at hok
  dsimp only at hok
  cases hinfo : fetch1SessionInfo store r.key with
  | error e => rw [hinfo] at hok; exact Except.noConfusion hok
  | ok info => rw [hinfo] at hok; exact ⟨info, rfl, hok⟩

theorem fetch1SessionInfo_fst (store : Store) (skey : Attrs) (r : SessionRecord)
    (info : SessionRecord × Option String)
    (hr : restrictSessions store skey = [r])
    (h : fetch1SessionInfo store skey = .ok info) : info.1 = r := by
  unfold fetch1SessionInfo joinedSessionNoteRows at h
  rw [hr] at h
  simp only [List.flatMap_cons, List.flatMap_nil, List.append_nil] at h
  cases hn : store.notes.filter (fun n => matchesKey r.key n.key) with
  | nil => rw [hn] at h; simp at h; rw [← h]
  | cons n ns =>
    rw [hn] at h
    cases ns with
    | nil => simp at h; rw [← h]
    | cons n2 ns2 => simp_all

/-- A concrete naive session timestamp (2020-05-12 04:13:07 as an epoch
instant), matching the docstring example. -/
def dtW : PyDateTime := { instant := 1589256787, offsetHours := none }

/-- A concrete session key, matching the docstring example. -/
def keyW : Attrs := [(("subject"), .str ("subject5")), (("session_datetime"), .dt dtW)]

/-- The concrete stored session record for `keyW`. -/
def sessW : SessionRecord := { key := keyW, session_datetime := dtW }

/-- A concrete store: one session, no note, two experimenters, one
subject affiliated with one lab whose timezone is `UTC-5`. -/
def storeW : Store :=
  { sessions := [sessW],
    notes := [],
    experimenters := [{ key := keyW, experimenter := ("alice") },
                      { key := keyW, experimenter := ("bob") }],
    subjects := [{ subject := ("subject5"), sex := some ("F") }],
    subjectLabs := [{ subject := ("subject5"), lab_name := ("lab1") }],
    labs := [{ lab_name := ("lab1"), institution := some ("inst1"),
               time_zone := some ("UTC-5") }] }

/-- A concrete environment with both optional providers available and
activated; `subject_to_nwb` translates the first row of the subject
query. -/
def envW : Env :=
  { haveElementAnimal := true,
    animalSchemaActivated := true,
    haveElementLab := true,
    labSchemaActivated := true,
    subject_to_nwb := fun q =>
      match q with
      | s :: _ => { subject_id := s.subject, sex := s.sex }
      | [] => { subject_id := (""), sex := none } }

/-- The environment `envW` with `element_animal` unavailable. -/
def envOff : Env := { envW with haveElementAnimal := false }

/-- The artifact `session_to_nwb envW storeW keyW none "u1"` returns. -/
def fileW : NWBFile :=
  { session_id := ("subject5_1589256787"), identifier := ("u1"),
    session_start_time := { instant := 1589256787, offsetHours := some 0 },
    session_description := (""),
    experimenter := some [("alice"), ("bob")],
    subject := some { subject_id := ("subject5"), sex := some ("F") },
    institution := some ("inst1"), lab := some ("lab1") }

/-- An empty store: no session matches any key. -/
def storeEmpty : Store :=
  { sessions := [], notes := [], experimenters := [], subjects := [],
    subjectLabs := [], labs := [] }

/-- C1: resolving the session key against the session store fails with
the DataJoint not-found/ambiguous `fetch1` error whenever the key
matches zero or more than one stored session record, and a successful
call implies the key matched exactly one record. -/
theorem session_to_nwb_key_not_unique_error (env : Env) (store : Store)
    (key : Attrs) (sid : Option String) (uuid : String) :
    ((restrictSessions store key).length ≠ 1 →
      session_to_nwb env store key sid uuid =
        Except.error (.dataJointError ("fetch1 should only return one tuple"))) ∧
    (∀ f, session_to_nwb env store key sid uuid = Except.ok f →
      (restrictSessions store key).length = 1) := by
  constructor
  · intro hne
    unfold session_to_nwb fetch1Key
    cases hl : restrictSessions store key with
    | nil => rfl
    | cons a t =>
      cases t with
      | nil => exact absurd (by simp [hl]) hne
      | cons b t2 => rfl
  · intro f hok
    unfold session_to_nwb fetch1Key at hok
    cases hl : restrictSessions store key with
    | nil => rw [hl] at hok; exact Except.noConfusion hok
    | cons a t =>
      cases t with
      | nil => simp
      | cons b t2 => rw [hl] at hok; exact Except.noConfusion hok

theorem session_to_nwb_key_not_unique_error_witness :
    session_to_nwb envW storeEmpty keyW none ("u1") =
      Except.error (.dataJointError ("fetch1 should only return one tuple")) :=
  (session_to_nwb_key_not_unique_error envW storeEmpty keyW none ("u1")).1
    (by decide)

/-- C5: for a session key resolving to exactly one stored record, the
artifact start time is the stored timestamp re-expressed in UTC. -/
theorem session_to_nwb_start_time_utc (env : Env) (store : Store) (key : Attrs)
    (sid : Option String) (uuid : String) (r : SessionRecord) (f : NWBFile)
    (hr : restrictSessions store key = [r])
    (hrk : restrictSessions store r.key = [r])
    (hok : session_to_nwb env store key sid uuid = Except.ok f) :
    f.session_start_time = r.session_datetime.astimezone 0 := by
  obtain ⟨info, hinfo, happ⟩ := session_to_nwb_ok_inv env store key sid uuid r f hr hok
  have hfst := fetch1SessionInfo_fst store r.key r info hrk hinfo
  have hfields := applySubjectAndLab_ok_fields env store r.key sid _ f happ
  rw [hfields.2.2.1]
  simp [mkBase, hfst]

theorem session_to_nwb_start_time_utc_witness :
    fileW.session_start_time = dtW.astimezone 0 :=
  session_to_nwb_start_time_utc envW storeW keyW none ("u1") sessW fileW
    (by rfl) (by rfl) (by rfl)

/-- C6: the artifact experimenter field is the fetched experimenter
names in fetch order when at least one exists, is `none` when none
exist, and is never an empty list. -/
theorem session_to_nwb_experimenter_order_or_none (env : Env) (store : Store)
    (key : Attrs) (sid : Option String) (uuid : String) (r : SessionRecord)
    (f : NWBFile)
    (hr : restrictSessions store key = [r])
    (hok : session_to_nwb env store key sid uuid = Except.ok f) :
    (fetchExperimenters store r.key ≠ [] →
      f.experimenter = some (fetchExperimenters store r.key)) ∧
    (fetchExperimenters store r.key = [] → f.experimenter = none) ∧
    f.experimenter ≠ some [] := by
  obtain ⟨info, hinfo, happ⟩ := session_to_nwb_ok_inv env store key sid uuid r f hr hok
  have hfields := applySubjectAndLab_ok_fields env store r.key sid _ f happ
  have hexp : f.experimenter = expOrNone (fetchExperimenters store r.key) := by
    rw [hfields.2.2.2.2]; exact rfl
  rw [hexp]
  unfold expOrNone
  cases hE : fetchExperimenters store r.key with
  | nil => simp
  | cons a l => simp

theorem session_to_nwb_experimenter_order_or_none_witness :
    fileW.experimenter = some [("alice"), ("bob")] :=
  (session_to_nwb_experimenter_order_or_none envW storeW keyW none ("u1")
    sessW fileW (by rfl) (by rfl)).1 (by decide)

/-- C7: when the left join finds no note for the uniquely matching
session, the join fetch still succeeds (absence of a note is not an
error) and the artifact session description defaults to the empty
string. -/
theorem session_to_nwb_absent_note_defaults (env : Env) (store : Store)
    (key : Attrs) (sid : Option String) (uuid : String) (r : SessionRecord)
    (f : NWBFile)
    (hr : restrictSessions store key = [r])
    (hrk : restrictSessions store r.key = [r])
    (hnote : store.notes.filter (fun n => matchesKey r.key n.key) = []) :
    fetch1SessionInfo store r.key = Except.ok (r, none) ∧
    (session_to_nwb env store key sid uuid = Except.ok f →
      f.session_description = ("")) := by
  have hinfo : fetch1SessionInfo store r.key = Except.ok (r, none) := by
    unfold fetch1SessionInfo joinedSessionNoteRows
    rw [hrk]
    simp [hnote]
  refine ⟨hinfo, fun hok => ?_⟩
  obtain ⟨info, hinfo2, happ⟩ := session_to_nwb_ok_inv env store key sid uuid r f hr hok
  rw [hinfo] at hinfo2
  have heq : info = (r, none) := (Except.ok.inj hinfo2).symm
  have hfields := applySubjectAndLab_ok_fields env store r.key sid _ f happ
  rw [hfields.2.2.2.1]
  simp [mkBase, heq]

theorem session_to_nwb_absent_note_defaults_witness :
    fetch1SessionInfo storeW sessW.key = Except.ok (sessW, none) ∧
    fileW.session_description = ("") := by
  have h := session_to_nwb_absent_note_defaults envW storeW keyW none ("u1")
    sessW fileW (by rfl) (by rfl) (by rfl)
  exact ⟨h.1, h.2 (by rfl)⟩

/-- C8: the artifact session id joins the resolved key values with
underscores, rendering timestamp values through `isoformat`; the
internal identifier is exactly the fresh uuid draw of the call, so two
calls with distinct draws return artifacts with distinct identifiers. -/
theorem session_to_nwb_session_id_join_and_fresh_identifier (env : Env)
    (store : Store) (key : Attrs) (sid : Option String) (uuid : String)
    (r : SessionRecord) (f : NWBFile)
    (hr : restrictSessions store key = [r])
    (hok : session_to_nwb env store key sid uuid = Except.ok f) :
    f.session_id = String.intercalate ("_") (r.key.map sessionIdentifierValue) ∧
    f.identifier = uuid ∧
    (∀ uuid2 f2, session_to_nwb env store key sid uuid2 = Except.ok f2 →
      uuid2 ≠ uuid → f2.identifier ≠ f.identifier) := by
  obtain ⟨info, hinfo, happ⟩ := session_to_nwb_ok_inv env store key sid uuid r f hr hok
  have hfields := applySubjectAndLab_ok_fields env store r.key sid _ f happ
  refine ⟨by rw [hfields.1]; exact rfl, by rw [hfields.2.1]; exact rfl, ?_⟩
  intro uuid2 f2 hok2 hne
  obtain ⟨info2, hinfo2, happ2⟩ := session_to_nwb_ok_inv env store key sid uuid2 r f2 hr hok2
  have hfields2 := applySubjectAndLab_ok_fields env store r.key sid _ f2 happ2
  have hid : f.identifier = uuid := by rw [hfields.2.1]; exact rfl
  have hid2 : f2.identifier = uuid2 := by rw [hfields2.2.1]; exact rfl
  rw [hid, hid2]
  exact hne

theorem session_to_nwb_session_id_join_and_fresh_identifier_witness :
    fileW.session_id = ("subject5_1589256787") ∧ fileW.identifier = ("u1") := by
  have h := session_to_nwb_session_id_join_and_fresh_identifier envW storeW keyW
    none ("u1") sessW fileW (by rfl) (by rfl)
  exact ⟨h.1, h.2.1⟩

/-- C9: when the subject-metadata provider is available and activated,
the explicit subject id argument has no effect on the result. -/
theorem session_to_nwb_subject_id_independent_when_provider_active (env : Env)
    (store : Store) (key : Attrs) (uuid : String)
    (hprov : (env.haveElementAnimal && env.animalSchemaActivated) = true) :
    ∀ sid1 sid2, session_to_nwb env store key sid1 uuid =
      session_to_nwb env store key sid2 uuid := by
  intro sid1 sid2
  unfold session_to_nwb
  cases hk : fetch1Key store key with
  | error e => rfl
  | ok skey =>
    dsimp only
    cases hi : fetch1SessionInfo store skey with
    | error e => rfl
    | ok info =>
      dsimp only
      unfold applySubjectAndLab
      simp [hprov]

theorem session_to_nwb_subject_id_independent_when_provider_active_witness :
    session_to_nwb envW storeW keyW (some ("other")) ("u1") =
      session_to_nwb envW storeW keyW none ("u1") :=
  session_to_nwb_subject_id_independent_when_provider_active envW storeW keyW
    ("u1") (by rfl) (some ("other")) none

/-- C3: without an available, activated subject-metadata provider the
call fails with the missing-parameter `ValueError` when no subject id is
supplied, and otherwise builds the minimal subject sub-record from the
supplied id. -/
theorem session_to_nwb_subject_id_required_without_provider (env : Env)
    (store : Store) (key : Attrs) (uuid : String) (r : SessionRecord)
    (info : SessionRecord × Option String)
    (hr : restrictSessions store key = [r])
    (hinfo : fetch1SessionInfo store r.key = Except.ok info)
    (hprov : (env.haveElementAnimal && env.animalSchemaActivated) = false) :
    (session_to_nwb env store key none uuid =
      Except.error (.valueError
        ("If you are not using element_animal, you musts specify a subject_id."))) ∧
    (∀ s f, session_to_nwb env store key (some s) uuid = Except.ok f →
      f.subject = some { subject_id := s, sex := none }) := by
  have hk : fetch1Key store key = Except.ok r.key := by unfold fetch1Key; rw [hr]
  constructor
  · unfold session_to_nwb
    rw [hk]
    dsimp only
    rw [hinfo]
    dsimp only
    unfold applySubjectAndLab
    simp [hprov]
  · intro s f hok
    obtain ⟨info2, hinfo2, happ⟩ :=
      session_to_nwb_ok_inv env store key (some s) uuid r f hr hok
    unfold applySubjectAndLab at happ
    rw [hprov] at happ
    simp only [Bool.false_eq_true, if_false] at happ
    injection happ with happ
    rw [← happ]

theorem session_to_nwb_subject_id_required_without_provider_witness :
    session_to_nwb envOff storeW keyW none ("u1") =
      Except.error (.valueError
        ("If you are not using element_animal, you musts specify a subject_id.")) := by
  have h := session_to_nwb_subject_id_required_without_provider envOff storeW
    keyW ("u1") sessW (sessW, none) (by rfl) (by rfl) (by rfl)
  exact h.1

/-- A store in which the session subject is affiliated with two labs,
making the lab query ambiguous. -/
def storeTwoLabs : Store :=
  { storeW with
    subjectLabs := [{ subject := ("subject5"), lab_name := ("lab1") },
                    { subject := ("subject5"), lab_name := ("lab2") }],
    labs := [{ lab_name := ("lab1"), institution := some ("inst1"),
               time_zone := some ("UTC-5") },
             { lab_name := ("lab2"), institution := some ("inst2"),
               time_zone := none }] }

/-- C4: when both providers are active and the lab query yields more
than one candidate row, the call fails with the explicit ambiguous-lab
error asking the caller to restrict the session key. -/
theorem session_to_nwb_ambiguous_lab_error (env : Env) (store : Store)
    (key : Attrs) (sid : Option String) (uuid : String) (r : SessionRecord)
    (info : SessionRecord × Option String) (l1 l2 : LabRecord)
    (rest : List LabRecord)
    (hr : restrictSessions store key = [r])
    (hinfo : fetch1SessionInfo store r.key = Except.ok info)
    (hA : (env.haveElementAnimal && env.animalSchemaActivated) = true)
    (hL : (env.haveElementLab && env.labSchemaActivated) = true)
    (hq : labQuery store r.key = l1 :: l2 :: rest) :
    session_to_nwb env store key sid uuid =
      Except.error (.dataJointError
        ("Multiple labs associated with this session. Try restricting your session key to specify lab.")) := by
  have hk : fetch1Key store key = Except.ok r.key := by unfold fetch1Key; rw [hr]
  unfold session_to_nwb
  rw [hk]
  dsimp only
  rw [hinfo]
  dsimp only
  unfold applySubjectAndLab
  simp [hA, hL, hq]

theorem session_to_nwb_ambiguous_lab_error_witness :
    session_to_nwb envW storeTwoLabs keyW none ("u1") =
      Except.error (.dataJointError
        ("Multiple labs associated with this session. Try restricting your session key to specify lab.")) := by
  exact session_to_nwb_ambiguous_lab_error envW storeTwoLabs keyW none ("u1")
    sessW (sessW, none)
    { lab_name := ("lab1"), institution := some ("inst1"),
      time_zone := some ("UTC-5") }
    { lab_name := ("lab2"), institution := some ("inst2"), time_zone := none }
    [] (by rfl) (by rfl) (by rfl) (by rfl) (by rfl)

/-- A store whose single lab record carries a timezone string that
starts with UTC but whose remainder is not a plain integer. -/
def storeBadTz : Store :=
  { storeW with
    labs := [{ lab_name := ("lab1"), institution := some ("inst1"),
               time_zone := some ("UTC+05:30") }] }

/-- C10: when the single lab record has a timezone whose first three
characters are UTC but whose remainder fails the integer parse, the call
raises the `ValueError` of `int` instead of returning an artifact; the
guard checks only the three-character prefix before parsing. -/
theorem session_to_nwb_utc_prefix_bad_offset_raises (env : Env) (store : Store)
    (key : Attrs) (sid : Option String) (uuid : String) (r : SessionRecord)
    (info : SessionRecord × Option String) (l : LabRecord) (tz : String)
    (hr : restrictSessions store key = [r])
    (hinfo : fetch1SessionInfo store r.key = Except.ok info)
    (hA : (env.haveElementAnimal && env.animalSchemaActivated) = true)
    (hL : (env.haveElementLab && env.labSchemaActivated) = true)
    (hq : labQuery store r.key = [l])
    (htz : l.time_zone = some tz)
    (hpre : tz.take 3 = ("UTC"))
    (hbad : pyInt (tz.drop 3) = none) :
    session_to_nwb env store key sid uuid =
      Except.error (.valueError
        (("invalid literal for int() with base 10: ") ++ tz.drop 3)) := by
  have hk : fetch1Key store key = Except.ok r.key := by unfold fetch1Key; rw [hr]
  unfold session_to_nwb
  rw [hk]
  dsimp only
  rw [hinfo]
  dsimp only
  unfold applySubjectAndLab
  simp [hA, hL, hq, htz, hpre, hbad]

theorem session_to_nwb_utc_prefix_bad_offset_raises_witness :
    session_to_nwb envW storeBadTz keyW none ("u1") =
      Except.error (.valueError
        ("invalid literal for int() with base 10: +05:30")) := by
  exact session_to_nwb_utc_prefix_bad_offset_raises envW storeBadTz keyW none
    ("u1") sessW (sessW, none)
    { lab_name := ("lab1"), institution := some ("inst1"),
      time_zone := some ("UTC+05:30") }
    ("UTC+05:30") (by rfl) (by rfl) (by rfl) (by rfl) (by rfl) (by rfl)
    (by rfl) (by rfl)

/-- C2, code behaviour: with the single matching lab record carrying
`time_zone = "UTC-5"`, the source evaluates the localized datetime but
never stores it, so the returned `session_start_time` is still expressed
at offset 0 (UTC) and not at the minus-five-hour offset that the
docstring mapping and the localization comment promise. -/
theorem session_to_nwb_timezone_localization_discarded :
    session_to_nwb envW storeW keyW none ("u1") = Except.ok fileW ∧
    fileW.session_start_time.offsetHours = some 0 ∧
    fileW.session_start_time ≠ dtW.astimezone (-5) := by
  refine ⟨rfl, rfl, ?_⟩
  decide

end ElementSession
